import Mathlib

/-!
Shallow embedding of the dependency-injection registry in
src/src/dicontainer/container.py (classes ServiceDescriptor and
ServiceCollection), together with theorems settling the frozen claims.

Python objects are modelled by small structures carrying exactly the
observations the code makes of them: an identity (for equality), a
truthiness bit where the code branches on truthiness, a runtime type
where the code calls type(...), an arity and return annotation for
factory callables.  Class objects (values of Python type `type`) and
function objects are always truthy in Python, so their models carry no
truthiness bit; instances and service keys do.  Fallible code returns
Except; mutating methods of the collection return a pair of the
Except outcome and the (possibly updated) collection state.
-/

namespace Dicontainer

/-- Kinds of exceptions raised by the code under study, with the message
text from the source (format arguments elided where the source
interpolates values). -/
inductive PyErr where
  | valueError (msg : String)
  | runtimeError (msg : String)
  | typeError (msg : String)
  | indexError (msg : String)
  | assertionError (msg : String)
deriving DecidableEq, Repr

/-- Model of a Python class object (a value of type `type`).  Two class
objects are equal exactly when they are the same object; class objects
are always truthy. -/
structure PyType where
  id : Nat
deriving DecidableEq, Repr

/-- The builtin base class `object`, compared against by
try_add_enumerable. -/
def objectType : PyType := ⟨0⟩

/-- Model of an arbitrary Python object used as a service key: an
identity for equality and a truthiness bit (None is modelled separately
as `Option.none`; a key such as 0 or the empty string is a PyObj whose
truthy bit is false). -/
structure PyObj where
  id : Nat
  truthy : Bool
deriving DecidableEq, Repr

/-- Model of a Python object used as a service instance: identity,
runtime type (what `type(instance)` returns) and truthiness. -/
structure PyInstance where
  id : Nat
  ty : PyType
  truthy : Bool
deriving DecidableEq, Repr

/-- The return annotation of a factory callable, as seen by
inspect.signature(factory).return_annotation: absent, present but not a
class object, or a class object. -/
inductive RetAnn where
  | empty
  | nonType
  | ofType (t : PyType)
deriving DecidableEq, Repr

/-- Model of a factory callable: identity, number of declared
parameters (what len(inspect.signature(factory).parameters) returns)
and return annotation.  Function objects are always truthy. -/
structure PyFactory where
  id : Nat
  arity : Nat
  retAnn : RetAnn
deriving DecidableEq, Repr

/-- The factory value stored in a descriptor after construction: either
the caller supplied callable itself, or functools.partial of it with
the key parameter bound to None (built for two-parameter factories when
the key is not truthy). -/
inductive StoredFactory where
  | plain (f : PyFactory)
  | boundKeyNone (f : PyFactory)
deriving DecidableEq, Repr

/-- inspect.signature of a partial object keeps the return annotation
of the wrapped callable. -/
def StoredFactory.retAnn : StoredFactory → RetAnn
  | .plain f => f.retAnn
  | .boundKeyNone f => f.retAnn

/-- Model of a ServiceProvider collaborator passed to factories. -/
structure ServiceProvider where
  id : Nat
deriving DecidableEq, Repr

/-- The invocation a stored factory forwards to the underlying
callable. -/
inductive FactoryCall where
  | oneArg (f : PyFactory) (p : ServiceProvider)
  | twoArg (f : PyFactory) (p : ServiceProvider) (key : Option PyObj)
deriving DecidableEq, Repr

/-- Calling a stored factory with a single positional provider
argument: returns the call received by the underlying callable, or
`none` when Python would raise TypeError for a wrong argument count.  A
partial with the key parameter bound by keyword forwards
factory(provider, key=None). -/
def StoredFactory.callWithProvider : StoredFactory → ServiceProvider → Option FactoryCall
  | .plain f, p => if f.arity = 1 then some (.oneArg f p) else none
  | .boundKeyNone f, p => if f.arity = 2 then some (.twoArg f p none) else none

/-- ServiceLifetime enumeration (container.py lines 15-25).  Enum
members are truthy regardless of their numeric value, so `not lifetime`
in the source is true exactly for None. -/
inductive ServiceLifetime where
  | SINGLETON
  | SCOPED
  | TRANSIENT
deriving DecidableEq, Repr

/-- Truthiness of an optional service key: None and falsy objects are
falsy. -/
def keyTruthy : Option PyObj → Bool
  | none => false
  | some k => k.truthy

/-- Truthiness of an optional instance: None and falsy objects are
falsy. -/
def instTruthy : Option PyInstance → Bool
  | none => false
  | some i => i.truthy

/-- ServiceDescriptor state after construction (container.py lines
123-129): the six private fields assigned by the constructor. -/
structure ServiceDescriptor where
  _service_type : PyType
  _lifetime : ServiceLifetime
  _implementation_instance : Option PyInstance
  _implementation_type : Option PyType
  _implementation_factory : Option StoredFactory
  _service_key : Option PyObj
deriving DecidableEq, Repr

/-- ServiceDescriptor.__init__ (container.py lines 55-129), translated
check by check.  Python truthiness is used exactly where the source
uses it: `not instance` is true for None and for falsy objects, while
`not implementation_type` and `not factory` are true only for None
because class objects and callables are truthy. -/
def ServiceDescriptor.init (service_type : Option PyType)
    (lifetime : Option ServiceLifetime) («instance» : Option PyInstance)
    (implementation_type : Option PyType) (factory : Option PyFactory)
    (service_key : Option PyObj) : Except PyErr ServiceDescriptor :=
  match service_type with
  | none => .error (.valueError "Value cannot be None")
  | some st =>
    if !instTruthy «instance» && implementation_type.isNone && factory.isNone then
      .error (.valueError "Implementation must be provided")
    else
      match (match lifetime with
             | none =>
               if !instTruthy «instance» then
                 Except.error (PyErr.valueError "Lifetime must be specified when not using an instance")
               else
                 Except.ok ServiceLifetime.SINGLETON
             | some lt => Except.ok lt) with
      | .error e => .error e
      | .ok lt =>
        if instTruthy «instance» && !(lt == ServiceLifetime.SINGLETON) then
          .error (.valueError "Lifetime must be Singleton when using an instance")
        else if instTruthy «instance» && (implementation_type.isSome || factory.isSome) then
          .error (.valueError "Cannot specify both instance and implementation_type/factory")
        else if implementation_type.isSome && factory.isSome then
          .error (.valueError "Cannot specify both implementation_type and factory")
        else
          match (match factory with
                 | none => Except.ok (none : Option StoredFactory)
                 | some f =>
                   if f.arity == 1 && keyTruthy service_key then
                     Except.error (PyErr.valueError "Keyed service factory must take exactly two parameters.")
                   else if f.arity == 2 && !keyTruthy service_key then
                     Except.ok (some (StoredFactory.boundKeyNone f))
                   else if !(f.arity == 1) && !(f.arity == 2) then
                     Except.error (PyErr.valueError "Unexpected factory callable")
                   else
                     Except.ok none) with
          | .error e => .error e
          | .ok keyed_factory =>
            .ok { _service_type := st
                  _lifetime := lt
                  _implementation_instance := «instance»
                  _implementation_type := implementation_type
                  _implementation_factory := keyed_factory <|> factory.map StoredFactory.plain
                  _service_key := service_key }

/-- Property service_type. -/
def ServiceDescriptor.service_type (d : ServiceDescriptor) : PyType :=
  d._service_type

/-- Property lifetime. -/
def ServiceDescriptor.lifetime (d : ServiceDescriptor) : ServiceLifetime :=
  d._lifetime

/-- Property service_key. -/
def ServiceDescriptor.service_key (d : ServiceDescriptor) : Option PyObj :=
  d._service_key

/-- Property is_keyed_service: the key is not None (container.py lines
218-221). -/
def ServiceDescriptor.is_keyed_service (d : ServiceDescriptor) : Bool :=
  d._service_key.isSome

/-- Property implementation_instance: None when keyed, otherwise the
stored instance (container.py lines 141-151). -/
def ServiceDescriptor.implementation_instance (d : ServiceDescriptor) : Option PyInstance :=
  if d.is_keyed_service then none else d._implementation_instance

/-- Property keyed_implementation_instance: raises RuntimeError when
not keyed, otherwise the stored instance (container.py lines 153-163). -/
def ServiceDescriptor.keyed_implementation_instance (d : ServiceDescriptor) :
    Except PyErr (Option PyInstance) :=
  if !d.is_keyed_service then
    .error (.runtimeError "This service descriptor is not keyed.")
  else
    .ok d._implementation_instance

/-- Property implementation_type: None when keyed, otherwise the stored
type (container.py lines 165-175). -/
def ServiceDescriptor.implementation_type (d : ServiceDescriptor) : Option PyType :=
  if d.is_keyed_service then none else d._implementation_type

/-- Property keyed_implementation_type: raises RuntimeError when not
keyed, otherwise the stored type (container.py lines 177-187). -/
def ServiceDescriptor.keyed_implementation_type (d : ServiceDescriptor) :
    Except PyErr (Option PyType) :=
  if !d.is_keyed_service then
    .error (.runtimeError "This service descriptor is not keyed.")
  else
    .ok d._implementation_type

/-- Property implementation_factory: None when keyed, otherwise the
stored factory (container.py lines 189-199). -/
def ServiceDescriptor.implementation_factory (d : ServiceDescriptor) : Option StoredFactory :=
  if d.is_keyed_service then none else d._implementation_factory

/-- Property keyed_implementation_factory: raises RuntimeError when not
keyed, otherwise the stored factory (container.py lines 201-211). -/
def ServiceDescriptor.keyed_implementation_factory (d : ServiceDescriptor) :
    Except PyErr (Option StoredFactory) :=
  if !d.is_keyed_service then
    .error (.runtimeError "This service descriptor is not keyed.")
  else
    .ok d._implementation_factory

/-- ServiceDescriptor._get_factory_implementation_type (container.py
lines 484-493): asserts the factory has a return annotation and that
it is a class object, then returns it.  Failed assert statements raise
AssertionError. -/
def ServiceDescriptor._get_factory_implementation_type (factory : StoredFactory) :
    Except PyErr PyType :=
  match factory.retAnn with
  | .empty => .error (.assertionError "Factory must have a return type annotation")
  | .nonType => .error (.assertionError "Factory return type must be a type")
  | .ofType t => .ok t

/-- The message of the ValueError raised at the end of
get_implementation_type. -/
def implMustBeNonNullErr : PyErr :=
  .valueError "implementation_type, implementation_instance, or implementation_factory must be non null"

/-- ServiceDescriptor.get_implementation_type (container.py lines
320-342).  The branch `if not self.service_key` tests the truthiness of
the key, while the accessors used inside the branches test
is_keyed_service (key is not None); for a falsy non-None key the two
disagree.  `elif self.implementation_instance` tests the truthiness of
the returned instance. -/
def ServiceDescriptor.get_implementation_type (d : ServiceDescriptor) :
    Except PyErr PyType :=
  if !keyTruthy d._service_key then
    match d.implementation_type with
    | some t => .ok t
    | none =>
      let factoryOrErr : Except PyErr PyType :=
        match d.implementation_factory with
        | some f => ServiceDescriptor._get_factory_implementation_type f
        | none => .error implMustBeNonNullErr
      match d.implementation_instance with
      | some i => if i.truthy then .ok i.ty else factoryOrErr
      | none => factoryOrErr
  else
    (d.keyed_implementation_type).bind fun kt =>
      match kt with
      | some t => .ok t
      | none =>
        (d.keyed_implementation_instance).bind fun ki =>
          let kFactoryOrErr : Except PyErr PyType :=
            (d.keyed_implementation_factory).bind fun kf =>
              match kf with
              | some f => ServiceDescriptor._get_factory_implementation_type f
              | none => .error implMustBeNonNullErr
          match ki with
          | some i => if i.truthy then .ok i.ty else kFactoryOrErr
          | none => kFactoryOrErr

/-- ServiceDescriptor.using_type (container.py lines 223-245). -/
def ServiceDescriptor.using_type (service_type implementation_type : PyType)
    (lifetime : ServiceLifetime) (service_key : Option PyObj) :
    Except PyErr ServiceDescriptor :=
  ServiceDescriptor.init (some service_type) (some lifetime) none
    (some implementation_type) none service_key

/-- ServiceDescriptor.using_instance (container.py lines 247-267). -/
def ServiceDescriptor.using_instance (service_type : PyType) («instance» : PyInstance)
    (service_key : Option PyObj) : Except PyErr ServiceDescriptor :=
  ServiceDescriptor.init (some service_type) (some ServiceLifetime.SINGLETON)
    (some «instance») none none service_key

/-- ServiceDescriptor.using_factory (container.py lines 269-288). -/
def ServiceDescriptor.using_factory (service_type : PyType) (factory : PyFactory)
    (lifetime : ServiceLifetime) (service_key : Option PyObj) :
    Except PyErr ServiceDescriptor :=
  ServiceDescriptor.init (some service_type) (some lifetime) none none
    (some factory) service_key

/-- The implementation argument of describe, classified the way the
source inspects it: a class object (isinstance(implementation, type)),
a callable that is not a class object, or anything else.  Class objects
are themselves callable, but the isinstance branch is tested first. -/
inductive Implementation where
  | ofType (t : PyType)
  | ofFactory (f : PyFactory)
  | other (o : PyInstance)
deriving DecidableEq, Repr

/-- ServiceDescriptor.describe (container.py lines 344-370): dispatch
on the kind of implementation.  When the implementation is neither a
class object nor callable, no branch matches and the Python function
falls off the end, returning None without raising; the result type is
therefore an optional descriptor. -/
def ServiceDescriptor.describe (service_type : PyType)
    (implementation : Implementation) (lifetime : ServiceLifetime)
    (service_key : Option PyObj) : Except PyErr (Option ServiceDescriptor) :=
  match implementation with
  | .ofType t =>
    (ServiceDescriptor.using_type service_type t lifetime service_key).map some
  | .ofFactory f =>
    (ServiceDescriptor.using_factory service_type f lifetime service_key).map some
  | .other _ => .ok none

/-- Python index normalization for sequence element access: a negative
index counts from the end. -/
def pyNormIdx (len : Nat) (i : Int) : Int :=
  if i < 0 then i + len else i

/-- Python list.insert index clamping: indices past either end are
clamped into range. -/
def pyListInsert {α : Type} (xs : List α) (i : Int) (v : α) : List α :=
  let j := pyNormIdx xs.length i
  let k : Nat := if j < 0 then 0 else min j.toNat xs.length
  xs.take k ++ v :: xs.drop k

/-- ServiceCollection state (container.py lines 499-501): the list of
descriptors and the read-only flag. -/
structure ServiceCollection where
  _descriptors : List ServiceDescriptor
  _readonly : Bool
deriving DecidableEq, Repr

/-- ServiceCollection.__init__: empty list, mutable. -/
def ServiceCollection.init : ServiceCollection :=
  { _descriptors := [], _readonly := false }

/-- Property is_readonly (container.py lines 503-506). -/
def ServiceCollection.is_readonly (s : ServiceCollection) : Bool :=
  s._readonly

/-- ServiceCollection.make_readonly (container.py lines 508-513). -/
def ServiceCollection.make_readonly (s : ServiceCollection) : ServiceCollection :=
  { s with _readonly := true }

/-- The RuntimeError raised by _check_readonly. -/
def readonlyError : PyErr :=
  .runtimeError "The service collection cannot be modified because it is read-only."

/-- ServiceCollection._check_readonly (container.py lines 515-519). -/
def ServiceCollection._check_readonly (s : ServiceCollection) : Except PyErr Unit :=
  if s._readonly then .error readonlyError else .ok ()

/-- ServiceCollection.__len__ (container.py lines 521-522). -/
def ServiceCollection.__len__ (s : ServiceCollection) : Nat :=
  s._descriptors.length

/-- ServiceCollection.__contains__ (container.py lines 536-538); the
Ensure.not_none check never fires in this typed model because the
argument is a descriptor.  Python compares elements with default object
equality (identity); the model compares the descriptor records. -/
def ServiceCollection.__contains__ (s : ServiceCollection) (value : ServiceDescriptor) : Bool :=
  s._descriptors.contains value

/-- ServiceCollection.__iter__ (container.py lines 540-541): iteration
yields the descriptors in order. -/
def ServiceCollection.__iter__ (s : ServiceCollection) : List ServiceDescriptor :=
  s._descriptors

/-- ServiceCollection.__getitem__ for an int index (container.py lines
559-562): Python list indexing with negative-index support, raising
IndexError out of range. -/
def ServiceCollection.__getitem__ (s : ServiceCollection) (index : Int) :
    Except PyErr ServiceDescriptor :=
  let j := pyNormIdx s._descriptors.length index
  if h : 0 ≤ j ∧ j < (s._descriptors.length : Int) then
    .ok (s._descriptors.get ⟨j.toNat, by omega⟩)
  else
    .error (.indexError "list index out of range")

/-- ServiceCollection.insert (container.py lines 548-551): read-only
check, element type check (vacuous in this typed model), then
list.insert with Python index clamping. -/
def ServiceCollection.insert (s : ServiceCollection) (index : Int)
    (value : ServiceDescriptor) : Except PyErr Unit × ServiceCollection :=
  match s._check_readonly with
  | .error e => (.error e, s)
  | .ok _ => (.ok (), { s with _descriptors := pyListInsert s._descriptors index value })

/-- ServiceCollection.__setitem__ for an int index (container.py lines
570-580): read-only check first, then element assignment. -/
def ServiceCollection.__setitem__ (s : ServiceCollection) (index : Int)
    (value : ServiceDescriptor) : Except PyErr Unit × ServiceCollection :=
  match s._check_readonly with
  | .error e => (.error e, s)
  | .ok _ =>
    let j := pyNormIdx s._descriptors.length index
    if 0 ≤ j ∧ j < (s._descriptors.length : Int) then
      (.ok (), { s with _descriptors := s._descriptors.set j.toNat value })
    else
      (.error (.indexError "list assignment index out of range"), s)

/-- ServiceCollection.__delitem__ for an int index (container.py lines
588-590): read-only check first, then element deletion. -/
def ServiceCollection.__delitem__ (s : ServiceCollection) (index : Int) :
    Except PyErr Unit × ServiceCollection :=
  match s._check_readonly with
  | .error e => (.error e, s)
  | .ok _ =>
    let j := pyNormIdx s._descriptors.length index
    if 0 ≤ j ∧ j < (s._descriptors.length : Int) then
      (.ok (), { s with _descriptors := s._descriptors.eraseIdx j.toNat })
    else
      (.error (.indexError "list assignment index out of range"), s)

/-- ServiceCollection.append (container.py lines 592-595). -/
def ServiceCollection.append (s : ServiceCollection) (value : ServiceDescriptor) :
    Except PyErr Unit × ServiceCollection :=
  match s._check_readonly with
  | .error e => (.error e, s)
  | .ok _ => (.ok (), { s with _descriptors := s._descriptors ++ [value] })

/-- ServiceCollection.clear (container.py lines 597-599). -/
def ServiceCollection.clear (s : ServiceCollection) :
    Except PyErr Unit × ServiceCollection :=
  match s._check_readonly with
  | .error e => (.error e, s)
  | .ok _ => (.ok (), { s with _descriptors := [] })

/-- ServiceCollection.extend (container.py lines 601-604). -/
def ServiceCollection.extend (s : ServiceCollection) (values : List ServiceDescriptor) :
    Except PyErr Unit × ServiceCollection :=
  match s._check_readonly with
  | .error e => (.error e, s)
  | .ok _ => (.ok (), { s with _descriptors := s._descriptors ++ values })

/-- ServiceCollection.reverse (container.py lines 606-608). -/
def ServiceCollection.reverse (s : ServiceCollection) :
    Except PyErr Unit × ServiceCollection :=
  match s._check_readonly with
  | .error e => (.error e, s)
  | .ok _ => (.ok (), { s with _descriptors := s._descriptors.reverse })

/-- ServiceCollection.pop (container.py lines 610-612): read-only check
first, then list.pop with Python index semantics. -/
def ServiceCollection.pop (s : ServiceCollection) (index : Int) :
    Except PyErr ServiceDescriptor × ServiceCollection :=
  match s._check_readonly with
  | .error e => (.error e, s)
  | .ok _ =>
    let j := pyNormIdx s._descriptors.length index
    if h : 0 ≤ j ∧ j < (s._descriptors.length : Int) then
      (.ok (s._descriptors.get ⟨j.toNat, by omega⟩),
       { s with _descriptors := s._descriptors.eraseIdx j.toNat })
    else
      (.error (.indexError "pop index out of range"), s)

/-- ServiceCollection.remove (container.py lines 614-617): read-only
check first, then list.remove of the first equal element, ValueError
when absent. -/
def ServiceCollection.remove (s : ServiceCollection) (value : ServiceDescriptor) :
    Except PyErr Unit × ServiceCollection :=
  match s._check_readonly with
  | .error e => (.error e, s)
  | .ok _ =>
    if s._descriptors.contains value then
      (.ok (), { s with _descriptors := s._descriptors.erase value })
    else
      (.error (.valueError "list.remove: x not in list"), s)

/-- ServiceCollection.__iadd__ (container.py lines 619-623). -/
def ServiceCollection.__iadd__ (s : ServiceCollection) (values : List ServiceDescriptor) :
    Except PyErr Unit × ServiceCollection :=
  match s._check_readonly with
  | .error e => (.error e, s)
  | .ok _ => (.ok (), { s with _descriptors := s._descriptors ++ values })

/-- ServiceCollection.try_add (container.py lines 625-640): a no-op
when some existing entry has the same service_type and the same
service_key, otherwise append (which performs the read-only check). -/
def ServiceCollection.try_add (s : ServiceCollection) (descriptor : ServiceDescriptor) :
    Except PyErr Unit × ServiceCollection :=
  if s._descriptors.any (fun d =>
      d._service_type == descriptor._service_type &&
      d._service_key == descriptor._service_key) then
    (.ok (), s)
  else
    s.append descriptor

/-- The ValueError raised by try_add_enumerable for an implementation
type indistinguishable from the service type or from `object` (format
arguments of the source message elided). -/
def indistinguishableError : PyErr :=
  .valueError "Implementation type cannot be indistinguishable from other services registered for the service type."

/-- The scan inside _try_add_enumerable (container.py lines 729-735):
walk the existing entries in order; for an entry with the same
service_type, resolve its implementation type (this can raise, and the
raise propagates) and report a duplicate when it equals the incoming
implementation type and the keys also match.  The and-conditions
short-circuit exactly as in the source, so entries of a different
service_type are never resolved. -/
def tryAddEnumerableLoop (ds : List ServiceDescriptor) (descriptor : ServiceDescriptor)
    (implementation_type : PyType) : Except PyErr Bool :=
  match ds with
  | [] => .ok false
  | srv :: rest =>
    if srv._service_type == descriptor._service_type then
      match srv.get_implementation_type with
      | .error e => .error e
      | .ok sit =>
        if sit == implementation_type && srv._service_key == descriptor._service_key then
          .ok true
        else
          tryAddEnumerableLoop rest descriptor implementation_type
    else
      tryAddEnumerableLoop rest descriptor implementation_type

/-- ServiceCollection.try_add_enumerable for a single descriptor
(container.py lines 697-745, inner function _try_add_enumerable; the
iterable overload applies the same body to each element).  Element type
check is vacuous in this typed model.  The comparisons
`implementation_type is object` and `is descriptor.service_type` are
identity tests on class objects, which coincide with equality in the
model. -/
def ServiceCollection.try_add_enumerable (s : ServiceCollection)
    (descriptor : ServiceDescriptor) : Except PyErr Unit × ServiceCollection :=
  match descriptor.get_implementation_type with
  | .error e => (.error e, s)
  | .ok implementation_type =>
    if implementation_type == objectType ||
        implementation_type == descriptor._service_type then
      (.error indistinguishableError, s)
    else
      match tryAddEnumerableLoop s._descriptors descriptor implementation_type with
      | .error e => (.error e, s)
      | .ok true => (.ok (), s)
      | .ok false => s.append descriptor

/-- Index of the first entry whose service_type and service_key both
equal those of the given descriptor: the index at which the for loop of
ServiceCollection.replace (container.py lines 759-765) deletes and
breaks. -/
def findFirstMatch (ds : List ServiceDescriptor) (descriptor : ServiceDescriptor) :
    Option Nat :=
  match ds with
  | [] => none
  | srv :: rest =>
    if srv._service_type == descriptor._service_type &&
        srv._service_key == descriptor._service_key then
      some 0
    else
      (findFirstMatch rest descriptor).map (· + 1)

/-- ServiceCollection.replace (container.py lines 747-768): delete the
first entry matching the incoming (service_type, service_key) via
__delitem__ (which performs the read-only check), then append. -/
def ServiceCollection.replace (s : ServiceCollection) (descriptor : ServiceDescriptor) :
    Except PyErr Unit × ServiceCollection :=
  match findFirstMatch s._descriptors descriptor with
  | some i =>
    match s.__delitem__ (Int.ofNat i) with
    | (.error e, s1) => (.error e, s1)
    | (.ok _, s1) => s1.append descriptor
  | none => s.append descriptor

/-- The loop of ServiceCollection.remove_all (container.py lines
780-782) iterates `enumerate(self)` over the live list while deleting
from it.  The list iterator advances one position per yield and
deletions never move it back, so at the n-th yield the iterator is at
position n of the current (already shrunk) list, and the enumerate
counter also equals n; `del self[i]` therefore deletes exactly the
element just yielded, after which the element shifted into its position
is skipped.  This function walks position i over the live list xs,
deleting matches; deletion goes through __delitem__, so on a read-only
collection the first match raises readonlyError. -/
def removeAllScan (readonly : Bool) (service_type : PyType) (i : Nat)
    (xs : List ServiceDescriptor) : Except PyErr (List ServiceDescriptor) :=
  if h : i < xs.length then
    let d := xs.get ⟨i, h⟩
    if d._service_type == service_type && d._service_key == none then
      if readonly then .error readonlyError
      else removeAllScan readonly service_type (i + 1) (xs.eraseIdx i)
    else
      removeAllScan readonly service_type (i + 1) xs
  else
    .ok xs
termination_by xs.length - i
decreasing_by
  · have := List.length_eraseIdx_of_lt h
    omega
  · omega

/-- ServiceCollection.remove_all (container.py lines 770-784): the
source takes only the service_type (no key parameter) and only entries
whose service_key is None are candidates for deletion. -/
def ServiceCollection.remove_all (s : ServiceCollection) (service_type : PyType) :
    Except PyErr Unit × ServiceCollection :=
  match removeAllScan s._readonly service_type 0 s._descriptors with
  | .error e => (.error e, s)
  | .ok xs => (.ok (), { s with _descriptors := xs })

/-! Concrete fixtures used by witnesses and counterexamples. -/

/-- A sample service type (e.g. the class str). -/
def tService : PyType := ⟨1⟩

/-- A sample implementation type distinct from the service type and
from object. -/
def tImpl : PyType := ⟨2⟩

/-- A truthy service key, e.g. the string test. -/
def keyTrue : PyObj := ⟨10, true⟩

/-- A second truthy service key. -/
def keyTrue2 : PyObj := ⟨12, true⟩

/-- A non-None but falsy service key, e.g. 0 or the empty string. -/
def keyFalsy : PyObj := ⟨11, false⟩

/-- A truthy instance whose runtime type is tImpl. -/
def instOk : PyInstance := ⟨20, ⟨2⟩, true⟩

/-- The Python value False: non-None, falsy, of runtime type bool. -/
def instFalse : PyInstance := ⟨21, ⟨4⟩, false⟩

/-- An object that is neither a class object nor callable, e.g. 42. -/
def obj42 : PyInstance := ⟨42, ⟨5⟩, true⟩

/-- A one-parameter factory annotated to return tImpl. -/
def fac1 : PyFactory := ⟨30, 1, .ofType tImpl⟩

/-- A two-parameter factory annotated to return tImpl. -/
def fac2 : PyFactory := ⟨31, 2, .ofType tImpl⟩

/-- A sample unkeyed descriptor mapping tService to the implementation
type tImpl. -/
def descUnkeyedType : ServiceDescriptor :=
  { _service_type := tService, _lifetime := .SINGLETON,
    _implementation_instance := none, _implementation_type := some tImpl,
    _implementation_factory := none, _service_key := none }

/-- A sample keyed descriptor for tService under keyTrue. -/
def descKeyedType : ServiceDescriptor :=
  { _service_type := tService, _lifetime := .SINGLETON,
    _implementation_instance := none, _implementation_type := some tImpl,
    _implementation_factory := none, _service_key := some keyTrue }

/-- A collection holding two copies of the same unkeyed registration,
mutable. -/
def collTwoUnkeyed : ServiceCollection :=
  { _descriptors := [descUnkeyedType, descUnkeyedType], _readonly := false }

/-! Claim theorems. -/

/-- C1: the constructor decides which strategies are present by Python
truthiness, not by non-None-ness.  Supplying the falsy (but non-None)
instance False together with an implementation_type does not raise:
construction succeeds and both _implementation_instance and
_implementation_type are set afterwards, contradicting the claim that
supplying more than one of the three strategies is a construction error
and that exactly one is set after construction. -/
theorem C1_falsy_instance_accepts_two_strategies :
    ServiceDescriptor.init (some tService) (some .TRANSIENT) (some instFalse)
        (some tImpl) none none =
      .ok { _service_type := tService, _lifetime := .TRANSIENT,
            _implementation_instance := some instFalse,
            _implementation_type := some tImpl,
            _implementation_factory := none, _service_key := none } := by
  rfl

/-- C9: describe builds a descriptor through the implementation-type
path for a class object and through the factory path for a callable,
but for an implementation that is neither (here the object 42) it does
not raise a usage error: no branch of the if/elif matches and the
function silently returns None. -/
theorem C9_describe_falls_through_to_none :
    ServiceDescriptor.describe tService (.ofType tImpl) .TRANSIENT none =
      .ok (some { _service_type := tService, _lifetime := .TRANSIENT,
                  _implementation_instance := none,
                  _implementation_type := some tImpl,
                  _implementation_factory := none, _service_key := none }) ∧
    ServiceDescriptor.describe tService (.ofFactory fac1) .TRANSIENT none =
      .ok (some { _service_type := tService, _lifetime := .TRANSIENT,
                  _implementation_instance := none,
                  _implementation_type := none,
                  _implementation_factory := some (.plain fac1),
                  _service_key := none }) ∧
    ServiceDescriptor.describe tService (.other obj42) .TRANSIENT none = .ok none := by
  exact ⟨rfl, rfl, rfl⟩

/-- C4: remove_all deletes from the live list while iterating it, so of
two adjacent unkeyed registrations of the same service type it removes
only the first: on a collection holding two matching entries the call
returns with one entry still present instead of removing every matching
entry. -/
theorem C4_remove_all_skips_second_match :
    collTwoUnkeyed.remove_all tService =
      (.ok (), { _descriptors := [descUnkeyedType], _readonly := false }) := by
  simp [ServiceCollection.remove_all, collTwoUnkeyed]
  rw [removeAllScan]
  simp [descUnkeyedType]
  rw [removeAllScan]
  simp

/-- The descriptor produced by constructing with the one-parameter
factory fac1 and the falsy key keyFalsy. -/
def descFalsyKeyFac1 : ServiceDescriptor :=
  { _service_type := tService, _lifetime := .SCOPED,
    _implementation_instance := none, _implementation_type := none,
    _implementation_factory := some (.plain fac1), _service_key := some keyFalsy }

/-- C6 counterexample: a one-argument factory attached to a keyed
descriptor does not always fail construction.  With the non-None but
falsy key keyFalsy the arity check tests the truthiness of the key, so
construction succeeds, and the resulting descriptor is keyed
(is_keyed_service is true). -/
theorem C6_cex_one_arg_factory_keyed_accepted :
    fac1.arity = 1 ∧
    descFalsyKeyFac1.is_keyed_service = true ∧
    ServiceDescriptor.init (some tService) (some .SCOPED) none none (some fac1)
        (some keyFalsy) = .ok descFalsyKeyFac1 := by
  exact ⟨rfl, rfl, rfl⟩

/-- C6 (amended): the factory arity checks branch on the truthiness of
service_key, not on its being non-None.  A one-argument factory raises
exactly when the key is truthy and is accepted (stored as passed) when
the key is None or falsy; a two-argument factory is accepted for every
key and is normalized by binding its key parameter to None exactly when
the key is not truthy, after which it is callable with a provider alone
and forwards (provider, None) to the underlying callable; any other
arity raises. -/
theorem C6_factory_arity_amended (st : PyType) (lt : ServiceLifetime)
    (f : PyFactory) (key : Option PyObj) (p : ServiceProvider) :
    (f.arity = 1 → keyTruthy key = true →
      ServiceDescriptor.init (some st) (some lt) none none (some f) key =
        .error (.valueError "Keyed service factory must take exactly two parameters.")) ∧
    (f.arity = 1 → keyTruthy key = false →
      ServiceDescriptor.init (some st) (some lt) none none (some f) key =
        .ok { _service_type := st, _lifetime := lt,
              _implementation_instance := none, _implementation_type := none,
              _implementation_factory := some (.plain f), _service_key := key }) ∧
    (f.arity = 2 → keyTruthy key = false →
      ServiceDescriptor.init (some st) (some lt) none none (some f) key =
        .ok { _service_type := st, _lifetime := lt,
              _implementation_instance := none, _implementation_type := none,
              _implementation_factory := some (.boundKeyNone f), _service_key := key } ∧
      (StoredFactory.boundKeyNone f).callWithProvider p =
        some (.twoArg f p none)) ∧
    (f.arity = 2 → keyTruthy key = true →
      ServiceDescriptor.init (some st) (some lt) none none (some f) key =
        .ok { _service_type := st, _lifetime := lt,
              _implementation_instance := none, _implementation_type := none,
              _implementation_factory := some (.plain f), _service_key := key }) ∧
    (f.arity ≠ 1 → f.arity ≠ 2 →
      ServiceDescriptor.init (some st) (some lt) none none (some f) key =
        .error (.valueError "Unexpected factory callable")) := by
  refine ⟨?_, ?_, ?_, ?_, ?_⟩
  · intro h1 h2
    simp [ServiceDescriptor.init, instTruthy, h1, h2]
  · intro h1 h2
    simp [ServiceDescriptor.init, instTruthy, h1, h2]
  · intro h1 h2
    constructor
    · simp [ServiceDescriptor.init, instTruthy, h1, h2]
    · simp [StoredFactory.callWithProvider, h1]
  · intro h1 h2
    simp [ServiceDescriptor.init, instTruthy, h1, h2]
  · intro h1 h2
    simp [ServiceDescriptor.init, instTruthy, h1, h2]

/-- C6 amended witness: concrete applications of the amended theorem —
the one-argument factory with a truthy key raises, and the
two-argument factory with no key is stored bound and callable with a
provider alone. -/
theorem C6_factory_arity_amended_witness :
    fac1.arity = 1 ∧ keyTruthy (some keyTrue) = true ∧ fac2.arity = 2 ∧
    keyTruthy (none : Option PyObj) = false ∧
    ServiceDescriptor.init (some tService) (some .SCOPED) none none (some fac1)
        (some keyTrue) =
      .error (.valueError "Keyed service factory must take exactly two parameters.") ∧
    (StoredFactory.boundKeyNone fac2).callWithProvider ⟨7⟩ =
      some (.twoArg fac2 ⟨7⟩ none) := by
  refine ⟨rfl, rfl, rfl, rfl, ?_, ?_⟩
  · exact (C6_factory_arity_amended tService .SCOPED fac1 (some keyTrue) ⟨7⟩).1 rfl rfl
  · exact (((C6_factory_arity_amended tService .SCOPED fac2 none ⟨7⟩).2.2.1) rfl rfl).2

/-- C8: accessors are partitioned by keyed-ness.  When the descriptor
is keyed, each plain accessor returns None and each keyed accessor
returns the stored value; when it is not keyed, each plain accessor
returns the stored value and each keyed accessor raises RuntimeError. -/
theorem C8_accessor_partition (d : ServiceDescriptor) :
    (d.is_keyed_service = true →
      d.implementation_instance = none ∧
      d.implementation_type = none ∧
      d.implementation_factory = none ∧
      d.keyed_implementation_instance = .ok d._implementation_instance ∧
      d.keyed_implementation_type = .ok d._implementation_type ∧
      d.keyed_implementation_factory = .ok d._implementation_factory) ∧
    (d.is_keyed_service = false →
      d.implementation_instance = d._implementation_instance ∧
      d.implementation_type = d._implementation_type ∧
      d.implementation_factory = d._implementation_factory ∧
      d.keyed_implementation_instance =
        .error (.runtimeError "This service descriptor is not keyed.") ∧
      d.keyed_implementation_type =
        .error (.runtimeError "This service descriptor is not keyed.") ∧
      d.keyed_implementation_factory =
        .error (.runtimeError "This service descriptor is not keyed.")) := by
  constructor <;> intro h <;>
    simp [ServiceDescriptor.implementation_instance,
      ServiceDescriptor.implementation_type,
      ServiceDescriptor.implementation_factory,
      ServiceDescriptor.keyed_implementation_instance,
      ServiceDescriptor.keyed_implementation_type,
      ServiceDescriptor.keyed_implementation_factory, h]

/-- C8 witness: the partition evaluated on a concrete keyed and a
concrete unkeyed descriptor. -/
theorem C8_accessor_partition_witness :
    descKeyedType.is_keyed_service = true ∧
    descUnkeyedType.is_keyed_service = false ∧
    descKeyedType.implementation_type = none ∧
    descKeyedType.keyed_implementation_type = .ok (some tImpl) ∧
    descUnkeyedType.implementation_type = some tImpl ∧
    descUnkeyedType.keyed_implementation_type =
      .error (.runtimeError "This service descriptor is not keyed.") := by
  refine ⟨rfl, rfl, ?_, ?_, ?_, ?_⟩
  · exact ((C8_accessor_partition descKeyedType).1 rfl).2.1
  · exact ((C8_accessor_partition descKeyedType).1 rfl).2.2.2.2.1
  · exact ((C8_accessor_partition descUnkeyedType).2 rfl).2.1
  · exact ((C8_accessor_partition descUnkeyedType).2 rfl).2.2.2.2.1

/-- C10: a descriptor whose service_key is non-None but falsy counts as
keyed for is_keyed_service, yet get_implementation_type branches on the
truthiness of the key and takes the unkeyed branch; there the plain
accessors all return None because the descriptor is keyed, so the
method raises ValueError even though a construction strategy (here an
implementation type) is stored. -/
theorem C10_falsy_key_unkeyed_branch (d : ServiceDescriptor) (k : PyObj)
    (hk : d._service_key = some k) (hfalsy : k.truthy = false)
    (_hstrat : d._implementation_type.isSome = true) :
    d.is_keyed_service = true ∧
    d.implementation_type = none ∧
    d.get_implementation_type = .error implMustBeNonNullErr := by
  refine ⟨?_, ?_, ?_⟩
  · simp [ServiceDescriptor.is_keyed_service, hk]
  · simp [ServiceDescriptor.implementation_type,
      ServiceDescriptor.is_keyed_service, hk]
  · simp [ServiceDescriptor.get_implementation_type, keyTruthy, hk, hfalsy,
      ServiceDescriptor.implementation_type,
      ServiceDescriptor.implementation_instance,
      ServiceDescriptor.implementation_factory,
      ServiceDescriptor.is_keyed_service]

/-- A sample descriptor with a falsy non-None key and a stored
implementation type. -/
def descFalsyKeyType : ServiceDescriptor :=
  { _service_type := tService, _lifetime := .SINGLETON,
    _implementation_instance := none, _implementation_type := some tImpl,
    _implementation_factory := none, _service_key := some keyFalsy }

/-- C10 witness: the falsy-key anomaly evaluated on a concrete
descriptor. -/
theorem C10_falsy_key_unkeyed_branch_witness :
    descFalsyKeyType._service_key = some keyFalsy ∧
    keyFalsy.truthy = false ∧
    descFalsyKeyType._implementation_type.isSome = true ∧
    descFalsyKeyType.is_keyed_service = true ∧
    descFalsyKeyType.get_implementation_type = .error implMustBeNonNullErr := by
  have h := C10_falsy_key_unkeyed_branch descFalsyKeyType keyFalsy rfl rfl rfl
  exact ⟨rfl, rfl, rfl, h.1, h.2.2⟩

/-- Indexing a collection at an in-range non-negative index succeeds
and returns the element at that position. -/
theorem getitem_in_range (s : ServiceCollection) (n : Nat)
    (hn : n < s._descriptors.length) :
    s.__getitem__ (n : Int) = .ok (s._descriptors.get ⟨n, hn⟩) := by
  have hnorm : pyNormIdx s._descriptors.length (n : Int) = (n : Int) := by
    unfold pyNormIdx
    rw [if_neg (by omega)]
  simp only [ServiceCollection.__getitem__, hnorm]
  rw [dif_pos ⟨by omega, by omega⟩]
  simp

/-- C2: on a read-only collection every mutating operation raises
readonlyError and returns the collection unchanged (contents and flag
included), while the read operations len, in-range indexing,
containment and iteration still succeed, and making the collection
read-only again changes nothing, so the flag never reverts. -/
theorem C2_readonly_latch (s : ServiceCollection) (hro : s._readonly = true)
    (i : Int) (d : ServiceDescriptor) (vs : List ServiceDescriptor)
    (n : Nat) (hn : n < s._descriptors.length) :
    s.insert i d = (.error readonlyError, s) ∧
    s.__setitem__ i d = (.error readonlyError, s) ∧
    s.__delitem__ i = (.error readonlyError, s) ∧
    s.append d = (.error readonlyError, s) ∧
    s.clear = (.error readonlyError, s) ∧
    s.extend vs = (.error readonlyError, s) ∧
    s.reverse = (.error readonlyError, s) ∧
    s.pop i = (.error readonlyError, s) ∧
    s.remove d = (.error readonlyError, s) ∧
    s.__iadd__ vs = (.error readonlyError, s) ∧
    s.__len__ = s._descriptors.length ∧
    s.__getitem__ (n : Int) = .ok (s._descriptors.get ⟨n, hn⟩) ∧
    s.__contains__ d = s._descriptors.contains d ∧
    s.__iter__ = s._descriptors ∧
    s.make_readonly = s := by
  refine ⟨?_, ?_, ?_, ?_, ?_, ?_, ?_, ?_, ?_, ?_, rfl,
    getitem_in_range s n hn, rfl, rfl, ?_⟩
  all_goals
    obtain ⟨ds, ro⟩ := s
  all_goals
    simp only at hro
  all_goals
    subst hro
  · simp [ServiceCollection.insert, ServiceCollection._check_readonly]
  · simp [ServiceCollection.__setitem__, ServiceCollection._check_readonly]
  · simp [ServiceCollection.__delitem__, ServiceCollection._check_readonly]
  · simp [ServiceCollection.append, ServiceCollection._check_readonly]
  · simp [ServiceCollection.clear, ServiceCollection._check_readonly]
  · simp [ServiceCollection.extend, ServiceCollection._check_readonly]
  · simp [ServiceCollection.reverse, ServiceCollection._check_readonly]
  · simp [ServiceCollection.pop, ServiceCollection._check_readonly]
  · simp [ServiceCollection.remove, ServiceCollection._check_readonly]
  · simp [ServiceCollection.__iadd__, ServiceCollection._check_readonly]
  · rfl

/-- A read-only collection holding one registration. -/
def collRO : ServiceCollection :=
  { _descriptors := [descUnkeyedType], _readonly := true }

/-- C2 witness: the latch evaluated on a concrete read-only collection,
a concrete descriptor and index 0. -/
theorem C2_readonly_latch_witness :
    collRO._readonly = true ∧
    0 < collRO._descriptors.length ∧
    collRO.insert 0 descKeyedType = (.error readonlyError, collRO) ∧
    collRO.pop 0 = (.error readonlyError, collRO) ∧
    collRO.__getitem__ ((0 : Nat) : Int) = .ok descUnkeyedType := by
  obtain ⟨h1, h2, h3, h4, h5, h6, h7, h8, h9, h10, h11, h12, h13, h14, h15⟩ :=
    C2_readonly_latch collRO rfl 0 descKeyedType [] 0 (by decide)
  exact ⟨rfl, by decide, h1, h8, h12⟩

/-- C3: try_add appends exactly when no existing entry has both the
same service_type and the same service_key, and is a no-op otherwise;
consequently adding two descriptors with the same pair to an empty
collection yields length 1, while two descriptors with the same
service_type but different keys yield length 2. -/
theorem C3_try_add (s : ServiceCollection) (d d2 e e2 : ServiceDescriptor)
    (hro : s._readonly = false)
    (hpair : d2._service_type = d._service_type ∧
      d2._service_key = d._service_key)
    (_htype : e2._service_type = e._service_type)
    (hkey : e2._service_key ≠ e._service_key) :
    s.try_add d =
      (if s._descriptors.any (fun x =>
          x._service_type == d._service_type &&
          x._service_key == d._service_key)
       then (.ok (), s)
       else (.ok (), { s with _descriptors := s._descriptors ++ [d] })) ∧
    ((ServiceCollection.init.try_add d).2.try_add d2).2.__len__ = 1 ∧
    ((ServiceCollection.init.try_add e).2.try_add e2).2.__len__ = 2 := by
  have step1 : ∀ a : ServiceDescriptor,
      ServiceCollection.init.try_add a =
        (.ok (), { _descriptors := [a], _readonly := false }) := by
    intro a
    simp [ServiceCollection.try_add, ServiceCollection.init,
      ServiceCollection.append, ServiceCollection._check_readonly]
  refine ⟨?_, ?_, ?_⟩
  · unfold ServiceCollection.try_add
    split
    · rfl
    · simp [ServiceCollection.append, ServiceCollection._check_readonly, hro]
  · rw [step1 d]
    simp [ServiceCollection.try_add, ServiceCollection.__len__,
      hpair.1, hpair.2]
  · rw [step1 e]
    have hkbeq : (e._service_key == e2._service_key) = false := by
      rw [beq_eq_false_iff_ne]
      exact fun h => hkey h.symm
    simp [ServiceCollection.try_add, ServiceCollection.__len__, hkbeq,
      ServiceCollection.append, ServiceCollection._check_readonly]

/-- C3 witness: adding the same registration twice to an empty
collection keeps one entry; adding the same service type under a
different key keeps both. -/
theorem C3_try_add_witness :
    ServiceCollection.init._readonly = false ∧
    ((ServiceCollection.init.try_add descUnkeyedType).2.try_add
      descUnkeyedType).2.__len__ = 1 ∧
    ((ServiceCollection.init.try_add descUnkeyedType).2.try_add
      descKeyedType).2.__len__ = 2 := by
  have h := C3_try_add ServiceCollection.init descUnkeyedType descUnkeyedType
    descUnkeyedType descKeyedType rfl ⟨rfl, rfl⟩ rfl (by decide)
  exact ⟨rfl, h.2.1, h.2.2⟩

/-- The entry found by findFirstMatch lies inside the list. -/
theorem findFirstMatch_lt_length (ds : List ServiceDescriptor)
    (d : ServiceDescriptor) (i : Nat) (h : findFirstMatch ds d = some i) :
    i < ds.length := by
  induction ds generalizing i with
  | nil => simp [findFirstMatch] at h
  | cons a rest ih =>
    rw [findFirstMatch] at h
    split at h
    · cases h
      simp
    · simp only [Option.map_eq_some'] at h
      obtain ⟨j, hj, rfl⟩ := h
      have := ih j hj
      simp only [List.length_cons]
      omega

/-- Behavior of replace on a mutable collection: the first entry with
the same (service_type, service_key) as the incoming descriptor is
removed (when present) and the incoming descriptor is appended. -/
theorem replace_spec (s : ServiceCollection) (d : ServiceDescriptor)
    (hro : s._readonly = false) :
    s.replace d = (.ok (), { s with _descriptors :=
      (match findFirstMatch s._descriptors d with
       | some i => s._descriptors.eraseIdx i
       | none => s._descriptors) ++ [d] }) := by
  unfold ServiceCollection.replace
  cases hf : findFirstMatch s._descriptors d with
  | none => simp [ServiceCollection.append, ServiceCollection._check_readonly, hro]
  | some i =>
    have hlt := findFirstMatch_lt_length _ _ _ hf
    have hnorm : pyNormIdx s._descriptors.length (Int.ofNat i) = (i : Int) := by
      rw [Int.ofNat_eq_natCast]
      unfold pyNormIdx
      rw [if_neg (by omega)]
    have hdel : s.__delitem__ (Int.ofNat i) =
        (.ok (), { s with _descriptors := s._descriptors.eraseIdx i }) := by
      simp only [ServiceCollection.__delitem__,
        ServiceCollection._check_readonly, hro, Bool.false_eq_true,
        if_false, hnorm]
      rw [if_pos ⟨by omega, by omega⟩]
      simp
    simp only [hdel]
    simp [ServiceCollection.append, ServiceCollection._check_readonly, hro]

/-- C5: replace removes the first entry matching the incoming
descriptor on (service_type, service_key) and appends the incoming
descriptor; on an empty collection this yields one entry, a replace
with a different key then yields two entries leaving the first
untouched, and a further replace with the first key keeps the
collection at two entries, replacing in place. -/
theorem C5_replace (s : ServiceCollection) (d dK dK2 dKr : ServiceDescriptor)
    (hro : s._readonly = false)
    (hk2 : dK2._service_key ≠ dK._service_key)
    (hrt : dKr._service_type = dK._service_type)
    (hrk : dKr._service_key = dK._service_key) :
    s.replace d = (.ok (), { s with _descriptors :=
      (match findFirstMatch s._descriptors d with
       | some i => s._descriptors.eraseIdx i
       | none => s._descriptors) ++ [d] }) ∧
    (ServiceCollection.init.replace dK).2._descriptors = [dK] ∧
    ((ServiceCollection.init.replace dK).2.replace dK2).2._descriptors =
      [dK, dK2] ∧
    (((ServiceCollection.init.replace dK).2.replace dK2).2.replace
      dKr).2._descriptors = [dK2, dKr] := by
  have hkbeq : (dK._service_key == dK2._service_key) = false := by
    rw [beq_eq_false_iff_ne]
    exact fun h => hk2 h.symm
  have hfind2 : findFirstMatch [dK] dK2 = none := by
    simp [findFirstMatch, hkbeq]
  have hfind3 : findFirstMatch [dK, dK2] dKr = some 0 := by
    simp [findFirstMatch, hrt, hrk]
  have e1 : (ServiceCollection.init.replace dK).2 =
      { _descriptors := [dK], _readonly := false } := by
    rw [replace_spec _ _ rfl]
    simp [ServiceCollection.init, findFirstMatch]
  have e2 : ((ServiceCollection.init.replace dK).2.replace dK2).2 =
      { _descriptors := [dK, dK2], _readonly := false } := by
    rw [e1, replace_spec _ _ rfl, hfind2]
    rfl
  refine ⟨replace_spec s d hro, ?_, ?_, ?_⟩
  · rw [e1]
  · rw [e2]
  · rw [e2, replace_spec _ _ rfl, hfind3]
    rfl

/-- A keyed descriptor for tService under the second truthy key. -/
def descKeyedType2 : ServiceDescriptor :=
  { _service_type := tService, _lifetime := .SINGLETON,
    _implementation_instance := none, _implementation_type := some tImpl,
    _implementation_factory := none, _service_key := some keyTrue2 }

/-- A replacement registration for tService under keyTrue with a
different lifetime. -/
def descKeyedTypeR : ServiceDescriptor :=
  { _service_type := tService, _lifetime := .TRANSIENT,
    _implementation_instance := none, _implementation_type := some tImpl,
    _implementation_factory := none, _service_key := some keyTrue }

/-- C5 witness: the replace scenario evaluated on concrete keyed
descriptors. -/
theorem C5_replace_witness :
    ServiceCollection.init._readonly = false ∧
    descKeyedType2._service_key ≠ descKeyedType._service_key ∧
    (ServiceCollection.init.replace descKeyedType).2._descriptors =
      [descKeyedType] ∧
    (((ServiceCollection.init.replace descKeyedType).2.replace
      descKeyedType2).2.replace descKeyedTypeR).2._descriptors =
      [descKeyedType2, descKeyedTypeR] := by
  have h := C5_replace ServiceCollection.init descUnkeyedType descKeyedType
    descKeyedType2 descKeyedTypeR rfl (by decide) rfl rfl
  exact ⟨rfl, by decide, h.2.1, h.2.2.2⟩

/-- Decidable equality of Except outcomes, used to state triple
comparisons on resolved implementation types. -/
instance {E A : Type} [DecidableEq E] [DecidableEq A] : DecidableEq (Except E A) := fun x y =>
  match x, y with
  | .ok a, .ok b =>
    if h : a = b then .isTrue (congrArg Except.ok h)
    else .isFalse (fun hc => h (Except.ok.inj hc))
  | .error a, .error b =>
    if h : a = b then .isTrue (congrArg Except.error h)
    else .isFalse (fun hc => h (Except.error.inj hc))
  | .ok _, .error _ => .isFalse (fun hc => Except.noConfusion hc)
  | .error _, .ok _ => .isFalse (fun hc => Except.noConfusion hc)

/-- When every existing entry with the same service_type as the
incoming descriptor has a resolvable implementation type, the scan of
try_add_enumerable returns whether some entry shares the whole
(service_type, resolved implementation type, service_key) triple. -/
theorem tryAddEnumerableLoop_spec (d : ServiceDescriptor) (it : PyType)
    (ds : List ServiceDescriptor)
    (hall : ∀ e ∈ ds, e._service_type = d._service_type →
      (e.get_implementation_type).isOk = true) :
    tryAddEnumerableLoop ds d it =
      .ok (ds.any fun e =>
        e._service_type == d._service_type &&
        decide (e.get_implementation_type = Except.ok it) &&
        e._service_key == d._service_key) := by
  induction ds with
  | nil => rfl
  | cons a rest ih =>
    have hrest := fun e he => hall e (List.mem_cons_of_mem a he)
    have hrec := ih hrest
    rw [tryAddEnumerableLoop, List.any_cons]
    by_cases hty : a._service_type = d._service_type
    · have hok := hall a (List.mem_cons_self a rest) hty
      obtain ⟨sit, hsit⟩ : ∃ t, a.get_implementation_type = Except.ok t := by
        cases hgi : a.get_implementation_type with
        | error err =>
          rw [hgi] at hok
          exact absurd hok (by simp [Except.isOk, Except.toBool])
        | ok t => exact ⟨t, rfl⟩
      rw [if_pos (by simp [hty]), hsit]
      simp only []
      by_cases hmatch : (sit == it && a._service_key == d._service_key) = true
      · rw [if_pos hmatch]
        simp only [Bool.and_eq_true, beq_iff_eq] at hmatch
        simp [hty, hmatch.1, hmatch.2]
      · rw [if_neg hmatch, hrec]
        have hhead : (a._service_type == d._service_type &&
            decide ((Except.ok sit : Except PyErr PyType) = Except.ok it) &&
            a._service_key == d._service_key) = false := by
          rw [Bool.eq_false_iff]
          intro hcontra
          apply hmatch
          simp only [Bool.and_eq_true, beq_iff_eq, decide_eq_true_eq,
            Except.ok.injEq] at hcontra
          simp [hcontra.1.2, hcontra.2]
        rw [hhead, Bool.false_or]
    · rw [if_neg (by simp [hty]), hrec]
      have hpred : (a._service_type == d._service_type &&
          decide (a.get_implementation_type = Except.ok it) &&
          a._service_key == d._service_key) = false := by
        have : (a._service_type == d._service_type) = false :=
          beq_eq_false_iff_ne.mpr hty
        simp [this]
      rw [hpred, Bool.false_or]

/-- C7: try_add_enumerable raises when the resolved implementation type
of the incoming descriptor equals the base class object or the
descriptor service_type; otherwise, provided the entries of matching
service_type have resolvable implementation types, it appends exactly
when no existing entry shares the (service_type, resolved
implementation type, service_key) triple and is a no-op otherwise. -/
theorem C7_try_add_enumerable (s : ServiceCollection) (d : ServiceDescriptor)
    (it : PyType) (hro : s._readonly = false)
    (hres : d.get_implementation_type = Except.ok it)
    (hall : ∀ e ∈ s._descriptors, e._service_type = d._service_type →
      (e.get_implementation_type).isOk = true) :
    (it = objectType ∨ it = d._service_type →
      s.try_add_enumerable d = (.error indistinguishableError, s)) ∧
    (it ≠ objectType → it ≠ d._service_type →
      s.try_add_enumerable d =
        (if s._descriptors.any (fun e =>
            e._service_type == d._service_type &&
            decide (e.get_implementation_type = Except.ok it) &&
            e._service_key == d._service_key)
         then (.ok (), s)
         else (.ok (), { s with _descriptors := s._descriptors ++ [d] }))) := by
  constructor
  · intro hcase
    unfold ServiceCollection.try_add_enumerable
    rw [hres]
    simp only []
    rw [if_pos]
    rcases hcase with h | h <;> simp [h]
  · intro h1 h2
    unfold ServiceCollection.try_add_enumerable
    rw [hres]
    simp only []
    rw [if_neg (by simp [h1, h2]),
      tryAddEnumerableLoop_spec d it s._descriptors hall]
    cases hany : s._descriptors.any fun e =>
        e._service_type == d._service_type &&
        decide (e.get_implementation_type = Except.ok it) &&
        e._service_key == d._service_key with
    | true => simp
    | false => simp [ServiceCollection.append, ServiceCollection._check_readonly, hro]

/-- C7 witness: on an empty mutable collection a descriptor whose
resolved implementation type differs from its service type and from
object is appended. -/
theorem C7_try_add_enumerable_witness :
    ServiceCollection.init._readonly = false ∧
    descUnkeyedType.get_implementation_type = Except.ok tImpl ∧
    tImpl ≠ objectType ∧
    tImpl ≠ descUnkeyedType._service_type ∧
    ServiceCollection.init.try_add_enumerable descUnkeyedType =
      (.ok (), { _descriptors := [descUnkeyedType], _readonly := false }) := by
  have h := (C7_try_add_enumerable ServiceCollection.init descUnkeyedType tImpl
    rfl rfl (by simp [ServiceCollection.init])).2 (by decide) (by decide)
  refine ⟨rfl, rfl, by decide, by decide, ?_⟩
  rw [h]
  rfl

end Dicontainer
